import Mathlib

/-
Verification of the behavioral rules engine of the `integra` repository:
the quota decay engine (src/integra/data/quota.py), the streak/grace
calculator (src/integra/data/streaks.py), the controlled-use evaluator
(src/integra/data/controlled_use.py), the penance state machine
(src/integra/integrations/penance.py) and the advisor aggregator
(src/integra/integrations/advisor.py).

Dates are modelled as integers (proleptic Gregorian ordinals, as used by
Python's `date.toordinal`, where ordinal 1 is a Monday), float amounts as
rationals, and parse failures as `Option` (`none` = unparseable value,
skipped by the code).  Injected effectful collaborators (the record
store, the questionnaire UI, the confirmation channel) are modelled as
explicit function arguments, and the effects the code performs on them
(records stored, confirmations requested, questionnaires run) are
returned as data.
-/

namespace Integra

/-! ### String helpers: Python `str.lower`, `str.upper` and the `in` operator
(ASCII case mapping, which covers every string the code compares). -/

def pyLowerChar (c : Char) : Char :=
  if 'A' ≤ c ∧ c ≤ 'Z' then Char.ofNat (c.toNat + 32) else c

/-- Python `s.lower()`. -/
def pyLower (s : String) : String := ⟨s.data.map pyLowerChar⟩

def pyUpperChar (c : Char) : Char :=
  if 'a' ≤ c ∧ c ≤ 'z' then Char.ofNat (c.toNat - 32) else c

/-- Python `s.upper()`. -/
def pyUpper (s : String) : String := ⟨s.data.map pyUpperChar⟩

/-- Does `needle` start `hay`? -/
def charsStartWith : List Char → List Char → Bool
  | [], _ => true
  | _ :: _, [] => false
  | a :: as, b :: bs => a == b && charsStartWith as bs

/-- Does `needle` occur contiguously inside `hay`? -/
def charsContain (hay needle : List Char) : Bool :=
  match hay with
  | [] => charsStartWith needle []
  | _ :: rest => charsStartWith needle hay || charsContain rest needle

/-- Python's substring test `needle in hay`. -/
def pyIn (needle hay : String) : Bool := charsContain hay.data needle.data

/-! ### Calendar helpers (quota.py: `_iso_week_start`) -/

/-- Python `date.weekday()`: Monday is 0.  Ordinal 1 (0001-01-01) is a Monday. -/
def pyWeekday (d : ℤ) : ℤ := (d - 1) % 7

/-- `_iso_week_start`: the Monday of the ISO week containing `d`
(`d - timedelta(days=d.weekday())`). -/
def isoWeekStart (d : ℤ) : ℤ := d - pyWeekday d

/-! ### Quota decay engine (quota.py) -/

/-- A lake record as seen by `get_quota_state` after JSON decoding:
`substance` is `none` when the field is not a string, `timestamp` is the
parsed calendar date (`none` when missing or unparseable), `amount` is the
parsed float (`none` when non-numeric, which the code skips with a warning;
a missing amount defaults to 0 before parsing). -/
structure IntakeRec where
  substance : Option String
  timestamp : Option ℤ
  amount : Option ℚ

deriving instance DecidableEq for IntakeRec

/-- `SUBSTANCE_QUOTAS`: per-substance `(quota_week_0, decay_factor)`. -/
def SUBSTANCE_QUOTAS (s : String) : Option (ℚ × ℚ) :=
  if s = "3-cmc" then some (10, 85/100)
  else if s = "k" then some (5, 85/100)
  else if s = "x" then some (2, 80/100)
  else if s = "thc" then some (14, 90/100)
  else none

/-- Derived `QuotaState` (schemas.py). -/
structure QuotaState where
  substance : String
  week_n : ℕ
  quota_week_0 : ℚ
  decay_factor : ℚ
  current_quota : ℚ
  units_used : ℚ
  status : String
  coaching_flag : Bool
  penance_triggered : Bool

deriving instance DecidableEq for QuotaState

/-- Records filtered by substance, case-insensitively
(`r["substance"].lower() == substance_lower`). -/
def substanceRecords (substanceLower : String) (records : List IntakeRec) : List IntakeRec :=
  records.filter fun r =>
    match r.substance with
    | some s => pyLower s == substanceLower
    | none => false

/-- The parseable record dates (`valid_dates`). -/
def validDates (recs : List IntakeRec) : List ℤ :=
  recs.filterMap fun r => r.timestamp

/-- `week_n = max(0, delta_days // 7)` from the earliest parseable record date,
0 when there is none. -/
def quotaWeekN (recs : List IntakeRec) (currentWeekStart : ℤ) : ℕ :=
  match (validDates recs).min? with
  | none => 0
  | some earliest =>
      (max 0 ((currentWeekStart - isoWeekStart earliest).fdiv 7)).toNat

/-- `units_used`: sum of parseable amounts of records whose week start equals
the reference week start; records with missing/unparseable timestamps or
non-numeric amounts are skipped. -/
def unitsUsedIn (recs : List IntakeRec) (currentWeekStart : ℤ) : ℚ :=
  recs.foldl
    (fun acc r =>
      match r.timestamp with
      | none => acc
      | some d =>
          if isoWeekStart d = currentWeekStart then
            match r.amount with
            | some a => acc + a
            | none => acc
          else acc)
    0

/-- The status/flag classification at the end of `get_quota_state`:
returns `(status, coaching_flag, penance_triggered)`. -/
def quotaStatusFlags (current_quota units_used : ℚ) : String × Bool × Bool :=
  if current_quota ≤ 0 ∧ units_used > 0 then ("zero_relapse", false, true)
  else if units_used > current_quota then ("over", true, false)
  else if units_used = current_quota then ("at", false, false)
  else ("under", false, false)

/-- The `QuotaState` built by `get_quota_state` once the substance is known
to be configured. -/
def quotaStateBody (substanceLower : String) (quotaWeek0 decayFactor : ℚ)
    (records : List IntakeRec) (refDate : ℤ) : QuotaState :=
  let currentWeekStart := isoWeekStart refDate
  let recs := substanceRecords substanceLower records
  let weekN := quotaWeekN recs currentWeekStart
  let currentQuota := quotaWeek0 * decayFactor ^ weekN
  let unitsUsed := unitsUsedIn recs currentWeekStart
  let flags := quotaStatusFlags currentQuota unitsUsed
  { substance := substanceLower
    week_n := weekN
    quota_week_0 := quotaWeek0
    decay_factor := decayFactor
    current_quota := currentQuota
    units_used := unitsUsed
    status := flags.1
    coaching_flag := flags.2.1
    penance_triggered := flags.2.2 }

/-- `get_quota_state` (quota.py): `None` when the lowercased substance is not
in `SUBSTANCE_QUOTAS`, otherwise the computed state. -/
def get_quota_state (substance : String) (records : List IntakeRec) (refDate : ℤ) :
    Option QuotaState :=
  match SUBSTANCE_QUOTAS (pyLower substance) with
  | none => none
  | some (q0, d) => some (quotaStateBody (pyLower substance) q0 d records refDate)

/-! ### Streak engine (streaks.py) -/

/-- Walking one day further back strictly shrinks the set of record dates at
or before the cursor, provided the cursor itself carries a record. -/
lemma filterLe_card_lt {s : Finset ℤ} {c : ℤ} (h : c ∈ s) :
    (s.filter fun d => d ≤ c - 1).card < (s.filter fun d => d ≤ c).card := by
  have hsub : (s.filter fun d => d ≤ c - 1) ⊆ s.filter fun d => d ≤ c := by
    intro x hx
    rw [Finset.mem_filter] at hx ⊢
    exact ⟨hx.1, by omega⟩
  have hc : c ∈ s.filter fun d => d ≤ c := Finset.mem_filter.mpr ⟨h, le_refl c⟩
  have hnc : c ∉ s.filter fun d => d ≤ c - 1 := by
    rw [Finset.mem_filter]
    rintro ⟨-, hle⟩
    omega
  exact Finset.card_lt_card ((Finset.ssubset_iff_of_subset hsub).mpr ⟨c, hc, hnc⟩)

/-- Walking one day further back past a day without a record leaves the set of
record dates at or before the cursor unchanged. -/
lemma filterLe_eq {s : Finset ℤ} {c : ℤ} (h : c ∉ s) :
    (s.filter fun d => d ≤ c - 1) = s.filter fun d => d ≤ c := by
  ext x
  rw [Finset.mem_filter, Finset.mem_filter]
  constructor
  · rintro ⟨hxs, hle⟩
    exact ⟨hxs, by omega⟩
  · rintro ⟨hxs, hle⟩
    refine ⟨hxs, ?_⟩
    have hne : x ≠ c := fun he => h (he ▸ hxs)
    omega

/-- `_count_bare_streak`: consecutive days backwards from `cursor`, no grace. -/
def countBareStreak (s : Finset ℤ) (cursor : ℤ) : ℕ :=
  if cursor ∈ s then countBareStreak s (cursor - 1) + 1 else 0
termination_by (s.filter fun d => d ≤ cursor).card
decreasing_by
  exact filterLe_card_lt (by assumption)

/-- The loop of `_compute_streak_with_grace`, carrying the `streak` and
`grace_consumed` accumulators. -/
def streakWalk (s : Finset ℤ) (cursor : ℤ) (graceBudget streak graceConsumed : ℕ) : ℕ × ℕ :=
  if cursor ∈ s then
    streakWalk s (cursor - 1) graceBudget (streak + 1) graceConsumed
  else if graceConsumed < graceBudget ∧ (cursor - 1) ∈ s then
    streakWalk s (cursor - 1) graceBudget streak (graceConsumed + 1)
  else
    (streak, graceConsumed)
termination_by 2 * (s.filter fun d => d ≤ cursor).card + (graceBudget - graceConsumed)
decreasing_by
  · have hlt := filterLe_card_lt (by assumption)
    omega
  · rename_i hnot hgrace
    rw [filterLe_eq hnot]
    omega

/-- `_compute_streak_with_grace(date_set, start, grace_budget)`:
returns `(streak_days, grace_consumed)`. -/
def computeStreakWithGrace (s : Finset ℤ) (start : ℤ) (graceBudget : ℕ) : ℕ × ℕ :=
  streakWalk s start graceBudget 0 0

/-- `_extract_dates`: the set of parsed record dates (records with missing or
unparseable timestamps are skipped; duplicates collapse). -/
def extractDates (records : List (Option ℤ)) : Finset ℤ :=
  records.foldr
    (fun r acc =>
      match r with
      | some d => insert d acc
      | none => acc)
    ∅

def MILESTONES : List ℕ := [7, 30, 50, 100]

def MAX_GRACE : ℕ := 3

/-- `compute_multiplier`: `min(1.0 + 0.01 * streak_days, 1.50)`. -/
def compute_multiplier (streakDays : ℕ) : ℚ :=
  min (1 + (1/100) * streakDays) (3/2)

/-- `check_milestone`: the streak itself when it is exactly a milestone. -/
def check_milestone (streakDays : ℕ) : Option ℕ :=
  if streakDays ∈ MILESTONES then some streakDays else none

/-- Derived `StreakState` (schemas.py). -/
structure StreakState where
  habit : String
  streak_days : ℕ
  multiplier : ℚ
  grace_total_earned : ℕ
  grace_consumed : ℕ
  grace_available : ℕ
  at_risk : Bool
  milestone_hit : Option ℕ

deriving instance DecidableEq for StreakState

/-- `get_streak_state` (streaks.py) as a pure function of the decoded record
timestamps and the reference date.  Note `grace_available` uses truncated
natural subtraction, which coincides with Python's `max(total - consumed, 0)`. -/
def get_streak_state (habit : String) (records : List (Option ℤ)) (refDate : ℤ) :
    StreakState :=
  let dateSet := extractDates records
  let completedToday : Bool := decide (refDate ∈ dateSet)
  if h : dateSet.Nonempty then
    let latestRecord := dateSet.max' h
    let bareSeed := countBareStreak dateSet latestRecord
    let graceBudget := min (bareSeed / 7) MAX_GRACE
    let p := computeStreakWithGrace dateSet refDate graceBudget
    { habit := habit
      streak_days := p.1
      multiplier := compute_multiplier p.1
      grace_total_earned := p.1 / 7
      grace_consumed := p.2
      grace_available := min (p.1 / 7 - p.2) MAX_GRACE
      at_risk := decide (7 ≤ p.1) && !completedToday
      milestone_hit := check_milestone p.1 }
  else
    { habit := habit
      streak_days := 0
      multiplier := compute_multiplier 0
      grace_total_earned := 0
      grace_consumed := 0
      grace_available := 0
      at_risk := false
      milestone_hit := none }

/-! ### Penance severity (penance.py: `compute_severity`) -/

inductive PenanceSeverity where
  | minor
  | standard
  | escalated

deriving instance DecidableEq for PenanceSeverity

/-- `compute_severity(units_over, relapse_count_this_week)`. -/
def compute_severity (unitsOver : ℚ) (relapseCountThisWeek : ℤ) : PenanceSeverity :=
  if relapseCountThisWeek ≥ 3 ∨ unitsOver > 3 then PenanceSeverity.escalated
  else if unitsOver ≤ 1 then PenanceSeverity.minor
  else PenanceSeverity.standard

/-! ### Controlled-use evaluator (controlled_use.py)

Timestamps are modelled as rational hours on an absolute timeline; the
timezone is modelled as a fixed offset in hours added before taking local
hour-of-day and local calendar date.  History records carry their parsed
timestamp and parsed amount (`none` = parse failure, skipped by the code). -/

structure CURecHist where
  timestamp : Option ℚ
  amount : Option ℚ

/-- `ControlledUseRecord` (schemas.py). -/
structure CURecord where
  substance : String
  amount : String
  unit : String
  timestamp : String
  work_hours_violation : Bool
  cooldown_violation : Bool
  daily_ceiling_exceeded : Bool
  ruliade : String

deriving instance DecidableEq for CURecord

structure SubstanceCfg where
  daily_ceiling : ℚ
  work_hours_start : ℤ
  work_hours_end : ℤ
  cooldown_hours : ℚ
  ruliade : String

deriving instance DecidableEq for SubstanceCfg

/-- `CONTROLLED_USE_CONFIG`: only `"bcd"` is configured. -/
def CONTROLLED_USE_CONFIG (s : String) : Option SubstanceCfg :=
  if s = "bcd" then
    some { daily_ceiling := 4
           work_hours_start := 9
           work_hours_end := 17
           cooldown_hours := 2
           ruliade := "not during work hours (09-17 CET), 2h cooldown between uses, skip if HALT score > 3" }
  else none

/-- Hour of day of an absolute time (in hours) after applying the tz offset. -/
def localHourAt (tzOffset t : ℚ) : ℤ := ⌊t + tzOffset⌋ % 24

/-- Local calendar date (day index) after applying the tz offset. -/
def localDateAt (tzOffset t : ℚ) : ℤ := ⌊(t + tzOffset) / 24⌋

/-- `_is_work_hours`: local hour in the half-open interval `[start, end)`. -/
def isWorkHours (tzOffset t : ℚ) (workStart workEnd : ℤ) : Bool :=
  decide (workStart ≤ localHourAt tzOffset t ∧ localHourAt tzOffset t < workEnd)

/-- `_cooldown_violated`: some parseable recent record is at or after
`t - cooldown_hours`. -/
def cooldownViolated (t : ℚ) (recentRecords : List CURecHist) (cooldownHours : ℚ) : Bool :=
  recentRecords.any fun r =>
    match r.timestamp with
    | some rt => decide (t - cooldownHours ≤ rt)
    | none => false

/-- `_today_total`: sum of parseable amounts of recent records sharing the
local calendar date of `t`. -/
def todayTotal (tzOffset t : ℚ) (recentRecords : List CURecHist) : ℚ :=
  recentRecords.foldl
    (fun acc r =>
      match r.timestamp with
      | none => acc
      | some rt =>
          if localDateAt tzOffset rt = localDateAt tzOffset t then
            match r.amount with
            | some a => acc + a
            | none => acc
          else acc)
    0

/-- `evaluate_controlled_use`.  `amountVal` is the result of `float(amount)`
(`none` = `ValueError`, defaulted to 0 by the code); `nowTs` models the
`datetime.now()` timestamp stamped onto the plain record of the unknown-substance
branch.  Returns `(record, coaching_needed, coaching_message)`. -/
def evaluate_controlled_use (substance amount unit : String) (amountVal : Option ℚ)
    (timestamp : ℚ) (recentRecords : List CURecHist) (tzOffset : ℚ) (nowTs : String) :
    CURecord × Bool × Option String :=
  match CONTROLLED_USE_CONFIG (pyLower substance) with
  | none =>
      ({ substance := substance
         amount := amount
         unit := unit
         timestamp := nowTs
         work_hours_violation := false
         cooldown_violation := false
         daily_ceiling_exceeded := false
         ruliade := "" }, false, none)
  | some cfg =>
      let workHoursViolation := isWorkHours tzOffset timestamp cfg.work_hours_start cfg.work_hours_end
      let cooldownViolation := cooldownViolated timestamp recentRecords cfg.cooldown_hours
      let newAmount := amountVal.getD 0
      let dailyCeilingExceeded :=
        decide (todayTotal tzOffset timestamp recentRecords + newAmount > cfg.daily_ceiling)
      let record : CURecord :=
        { substance := substance
          amount := amount
          unit := unit
          timestamp := toString timestamp
          work_hours_violation := workHoursViolation
          cooldown_violation := cooldownViolation
          daily_ceiling_exceeded := dailyCeilingExceeded
          ruliade := cfg.ruliade }
      let coachingNeeded := workHoursViolation || cooldownViolation || dailyCeilingExceeded
      let coachingMessage : Option String :=
        if coachingNeeded then
          let violations :=
            (if workHoursViolation then
               ["work hours (" ++ toString cfg.work_hours_start ++ ":00-" ++ toString cfg.work_hours_end ++ ":00)"]
             else []) ++
            (if cooldownViolation then
               ["cooldown (" ++ toString cfg.cooldown_hours ++ "h not elapsed)"]
             else []) ++
            (if dailyCeilingExceeded then
               ["daily ceiling (" ++ toString cfg.daily_ceiling ++ " units)"]
             else [])
          some ("Controlled-use rule violation for " ++ substance ++ ": " ++
                String.intercalate ", " violations ++ ". Rules: " ++ cfg.ruliade)
        else none
      (record, coachingNeeded, coachingMessage)

/-! ### Penance state machine (penance.py: `trigger_penance`)

The injected collaborators are modelled as functions: `confirm` stands for
`router.ask_confirmation` (message to verdict string), `runQ` for
`run_questionnaire` (questionnaire to answered field/answer pairs).  The
outcome collects the effects: the record returned, the records persisted via
`_store_record` together with their category, the confirmation messages sent,
and whether the questionnaire ran. -/

inductive QuestionType where
  | text
  | numeric
  | selection
  | time

structure Question where
  text : String
  field_name : String
  question_type : QuestionType
  options : List String := []

structure Questionnaire where
  title : String
  questions : List Question

/-- `PENANCE_QUESTIONNAIRES[severity]`. -/
def PENANCE_QUESTIONNAIRES : PenanceSeverity → Questionnaire
  | PenanceSeverity.minor =>
      { title := "Violation Diary (Minor)"
        questions :=
          [{ text := "What happened?", field_name := "what", question_type := QuestionType.text },
           { text := "What triggered it?", field_name := "trigger", question_type := QuestionType.text },
           { text := "Key takeaway?", field_name := "takeaway", question_type := QuestionType.text }] }
  | PenanceSeverity.standard =>
      { title := "Violation Diary (Standard)"
        questions :=
          [{ text := "What happened?", field_name := "what", question_type := QuestionType.text },
           { text := "What triggered it?", field_name := "trigger", question_type := QuestionType.text },
           { text := "Key takeaway?", field_name := "takeaway", question_type := QuestionType.text },
           { text := "Mood at the time?", field_name := "mood", question_type := QuestionType.selection,
             options := ["great", "good", "neutral", "low", "rough"] },
           { text := "What alternative action could you have taken?",
             field_name := "alternative_action", question_type := QuestionType.text }] }
  | PenanceSeverity.escalated =>
      { title := "Violation Diary (Escalated)"
        questions :=
          [{ text := "What happened?", field_name := "what", question_type := QuestionType.text },
           { text := "What triggered it?", field_name := "trigger", question_type := QuestionType.text },
           { text := "Key takeaway?", field_name := "takeaway", question_type := QuestionType.text },
           { text := "Mood at the time?", field_name := "mood", question_type := QuestionType.selection,
             options := ["great", "good", "neutral", "low", "rough"] },
           { text := "What alternative action could you have taken?",
             field_name := "alternative_action", question_type := QuestionType.text },
           { text := "HALT review — which factors were present (hungry/angry/lonely/tired)?",
             field_name := "halt_review", question_type := QuestionType.text },
           { text := "Commitment going forward?", field_name := "commitment",
             question_type := QuestionType.text },
           { text := "Coping plan for next craving?", field_name := "coping_plan",
             question_type := QuestionType.text }] }

/-- `PENANCE_CREDITS[severity]`. -/
def PENANCE_CREDITS : PenanceSeverity → ℚ
  | PenanceSeverity.minor => 1/2
  | PenanceSeverity.standard => 1/2
  | PenanceSeverity.escalated => 3/10

def severityStr : PenanceSeverity → String
  | PenanceSeverity.minor => "minor"
  | PenanceSeverity.standard => "standard"
  | PenanceSeverity.escalated => "escalated"

/-- `DiaryRecord` (schemas.py); `answers` keeps the Q&A pairs that the code
JSON-serializes. -/
structure DiaryRec where
  diary_type : String
  severity : String
  substance : String
  questions_asked : ℕ
  answers : List (String × String)
  penance_credit : ℚ
  timestamp : String

deriving instance DecidableEq for DiaryRec

/-- `_make_penance_diary_record`. -/
def makePenanceDiaryRecord (substance : String) (severity : PenanceSeverity)
    (answers : List (String × String)) (penanceCredit : ℚ) (ts : String) : DiaryRec :=
  { diary_type := "violation"
    severity := severityStr severity
    substance := substance
    questions_asked := answers.length
    answers := answers
    penance_credit := penanceCredit
    timestamp := ts }

/-- The HIL confirmation message built for escalated violations (number
formatting abstracted). -/
def confirmationMessage (substance : String) (unitsOver : ℚ) (relapseCountThisWeek : ℤ) :
    String :=
  "Escalated violation detected for " ++ substance ++ " (" ++ toString unitsOver ++
    " units over, " ++ toString relapseCountThisWeek ++
    " relapses this week). Start violation diary?"

/-- The observable outcome of one `trigger_penance` call. -/
structure PenanceOutcome where
  record : DiaryRec
  stored : List (DiaryRec × String)
  confirmations : List String
  questionnaireRan : Bool

/-- The tail of `trigger_penance` shared by all non-denied paths: run the
severity's questionnaire, build the diary record, store it. -/
def penanceComplete (substance : String) (severity : PenanceSeverity) (credit : ℚ)
    (runQ : Questionnaire → List (String × String)) (ts : String)
    (confirmations : List String) : PenanceOutcome :=
  let answers := runQ (PENANCE_QUESTIONNAIRES severity)
  let record := makePenanceDiaryRecord substance severity answers credit ts
  { record := record
    stored := [(record, "diary")]
    confirmations := confirmations
    questionnaireRan := true }

/-- `trigger_penance` (penance.py). -/
def trigger_penance (substance : String) (unitsOver : ℚ) (relapseCountThisWeek : ℤ)
    (confirm : String → String) (runQ : Questionnaire → List (String × String))
    (ts : String) : PenanceOutcome :=
  let severity := compute_severity unitsOver relapseCountThisWeek
  let credit := PENANCE_CREDITS severity
  if severity = PenanceSeverity.escalated then
    let message := confirmationMessage substance unitsOver relapseCountThisWeek
    let confirmation := confirm message
    if pyIn "APPROVED" (pyUpper confirmation) = false then
      let deniedRecord :=
        makePenanceDiaryRecord substance severity
          [("denied", "HIL confirmation denied")] 0 ts
      { record := deniedRecord
        stored := [(deniedRecord, "diary")]
        confirmations := [message]
        questionnaireRan := false }
    else
      penanceComplete substance severity credit runQ ts [message]
  else
    penanceComplete substance severity credit runQ ts []

/-! ### Advisor aggregator (advisor.py: `compute_advisor_state`)

The per-substance quota states and per-habit streak states that the code
fetches from the lake are injected as environment functions. -/

inductive AdvisorState where
  | struggling
  | holding
  | thriving

deriving instance DecidableEq for AdvisorState

def SUBSTANCES : List String := ["3-cmc", "k", "x", "thc"]

def HABITS : List String := ["exercise", "supplements", "sleep_target", "coding_drill"]

/-- `compute_advisor_state`. -/
def compute_advisor_state (quota : String → Option QuotaState)
    (streak : String → StreakState) : AdvisorState :=
  if SUBSTANCES.any (fun s =>
      match quota s with
      | some qs => qs.coaching_flag
      | none => false) then
    AdvisorState.struggling
  else
    let atRiskCount := (HABITS.filter fun h => (streak h).at_risk).length
    if 3 ≤ atRiskCount then AdvisorState.struggling
    else if 1 ≤ atRiskCount then AdvisorState.holding
    else AdvisorState.thriving

/-! ## Claim theorems -/

/-- Claim C1: `compute_severity` returns ESCALATED iff
`relapse_count_this_week ≥ 3` or `units_over > 3`; otherwise MINOR iff
`units_over ≤ 1`; otherwise STANDARD — together with the five boundary
values named by the spec. -/
theorem severity_classification :
    (∀ (u : ℚ) (r : ℤ),
      (compute_severity u r = PenanceSeverity.escalated ↔ 3 ≤ r ∨ 3 < u) ∧
      (compute_severity u r = PenanceSeverity.minor ↔ ¬(3 ≤ r ∨ 3 < u) ∧ u ≤ 1) ∧
      (compute_severity u r = PenanceSeverity.standard ↔ ¬(3 ≤ r ∨ 3 < u) ∧ 1 < u)) ∧
    compute_severity 1 0 = PenanceSeverity.minor ∧
    compute_severity (101/100) 0 = PenanceSeverity.standard ∧
    compute_severity 3 2 = PenanceSeverity.standard ∧
    compute_severity (301/100) 0 = PenanceSeverity.escalated ∧
    compute_severity (1/10) 3 = PenanceSeverity.escalated := by
  refine ⟨fun u r => ?_, ?_, ?_, ?_, ?_, ?_⟩
  · unfold compute_severity
    split_ifs with h1 h2 <;>
      refine ⟨?_, ?_, ?_⟩ <;> simp_all
  all_goals norm_num [compute_severity]

/-- Claim C2: whenever `get_quota_state` returns a state, its `status` is
classified in priority order (`zero_relapse`, then `over`, then `at` under
exact equality, then `under`), `penance_triggered` holds exactly in the
`zero_relapse` case and `coaching_flag` exactly in the `over` case. -/
theorem quota_status_priority :
    ∀ (substance : String) (records : List IntakeRec) (refDate : ℤ) (qs : QuotaState),
      get_quota_state substance records refDate = some qs →
      (qs.status =
        if qs.current_quota ≤ 0 ∧ qs.units_used > 0 then "zero_relapse"
        else if qs.units_used > qs.current_quota then "over"
        else if qs.units_used = qs.current_quota then "at"
        else "under") ∧
      (qs.penance_triggered = true ↔ qs.status = "zero_relapse") ∧
      (qs.coaching_flag = true ↔ qs.status = "over") := by
  intro substance records refDate qs h
  unfold get_quota_state at h
  cases htab : SUBSTANCE_QUOTAS (pyLower substance) with
  | none => rw [htab] at h; cases h
  | some p =>
      obtain ⟨q0, d⟩ := p
      rw [htab] at h
      simp only [Option.some.injEq] at h
      subst h
      simp only [quotaStateBody, quotaStatusFlags]
      split_ifs with h1 h2 h3 <;> simp

/-- Concrete quota state used by the C2 witness: substance "k", empty
history, reference date 0. -/
def wQuotaStateK : QuotaState :=
  { substance := "k"
    week_n := 0
    quota_week_0 := 5
    decay_factor := 85/100
    current_quota := 5
    units_used := 0
    status := "under"
    coaching_flag := false
    penance_triggered := false }

theorem quota_status_priority_witness :
    get_quota_state "k" [] 0 = some wQuotaStateK ∧
    (wQuotaStateK.status =
      if wQuotaStateK.current_quota ≤ 0 ∧ wQuotaStateK.units_used > 0 then "zero_relapse"
      else if wQuotaStateK.units_used > wQuotaStateK.current_quota then "over"
      else if wQuotaStateK.units_used = wQuotaStateK.current_quota then "at"
      else "under") ∧
    (wQuotaStateK.penance_triggered = true ↔ wQuotaStateK.status = "zero_relapse") ∧
    (wQuotaStateK.coaching_flag = true ↔ wQuotaStateK.status = "over") := by
  have hl : pyLower "k" = "k" := by decide
  have h : get_quota_state "k" [] 0 = some wQuotaStateK := by
    simp [get_quota_state, hl, SUBSTANCE_QUOTAS, quotaStateBody, substanceRecords,
      validDates, quotaWeekN, unitsUsedIn, quotaStatusFlags, isoWeekStart, pyWeekday,
      wQuotaStateK]
    decide
  exact ⟨h, quota_status_priority "k" [] 0 wQuotaStateK h⟩

/-- Every configured substance has a nonnegative initial quota and decay
factor. -/
lemma SUBSTANCE_QUOTAS_nonneg (s : String) (q0 d : ℚ)
    (h : SUBSTANCE_QUOTAS s = some (q0, d)) : 0 ≤ q0 ∧ 0 ≤ d := by
  unfold SUBSTANCE_QUOTAS at h
  split_ifs at h <;>
    simp only [Option.some.injEq, Prod.mk.injEq, reduceCtorEq] at h
  all_goals obtain ⟨h1, h2⟩ := h
  all_goals subst h1
  all_goals subst h2
  all_goals constructor <;> norm_num

/-- Claim C5: the returned quota is exactly
`quota_week_0 * decay_factor ^ week_n` with
`week_n = max(0, whole weeks between the Mondays)`, and for a decay factor
below 1 the quota is non-increasing in the week index. -/
theorem quota_decay_exact_monotone :
    (∀ (substance : String) (records : List IntakeRec) (refDate : ℤ) (qs : QuotaState),
      get_quota_state substance records refDate = some qs →
      qs.current_quota = qs.quota_week_0 * qs.decay_factor ^ qs.week_n ∧
      qs.week_n = quotaWeekN (substanceRecords (pyLower substance) records) (isoWeekStart refDate) ∧
      ∀ earliest : ℤ,
        (validDates (substanceRecords (pyLower substance) records)).min? = some earliest →
        (qs.week_n : ℤ) = max 0 ((isoWeekStart refDate - isoWeekStart earliest).fdiv 7)) ∧
    (∀ (s : String) (q0 d : ℚ), SUBSTANCE_QUOTAS s = some (q0, d) → d < 1 →
      ∀ k : ℕ, q0 * d ^ (k + 1) ≤ q0 * d ^ k) := by
  constructor
  · intro substance records refDate qs h
    unfold get_quota_state at h
    cases htab : SUBSTANCE_QUOTAS (pyLower substance) with
    | none => rw [htab] at h; cases h
    | some p =>
        obtain ⟨q0, d⟩ := p
        rw [htab] at h
        simp only [Option.some.injEq] at h
        subst h
        refine ⟨rfl, rfl, fun earliest he => ?_⟩
        have hw : quotaWeekN (substanceRecords (pyLower substance) records)
            (isoWeekStart refDate)
            = (max 0 ((isoWeekStart refDate - isoWeekStart earliest).fdiv 7)).toNat := by
          unfold quotaWeekN
          rw [he]
        show ((quotaWeekN (substanceRecords (pyLower substance) records)
          (isoWeekStart refDate) : ℕ) : ℤ) = _
        rw [hw]
        exact Int.toNat_of_nonneg (le_max_left 0 _)
  · intro s q0 d htab hd1 k
    obtain ⟨hq0, hd0⟩ := SUBSTANCE_QUOTAS_nonneg s q0 d htab
    have hdk : (0:ℚ) ≤ d ^ k := pow_nonneg hd0 k
    calc q0 * d ^ (k + 1) = q0 * d ^ k * d := by ring
      _ ≤ q0 * d ^ k * 1 := mul_le_mul_of_nonneg_left hd1.le (mul_nonneg hq0 hdk)
      _ = q0 * d ^ k := by ring

/-- Concrete history for the C5 witness: one record for substance "x" in the
reference week. -/
def wQuotaRecX : List IntakeRec :=
  [{ substance := some "X", timestamp := some 3, amount := some 1 }]

def wQuotaStateX : QuotaState :=
  { substance := "x"
    week_n := 0
    quota_week_0 := 2
    decay_factor := 80/100
    current_quota := 2 * (80/100) ^ (0:ℕ)
    units_used := 1
    status := "under"
    coaching_flag := false
    penance_triggered := false }

lemma quota_eval_x : get_quota_state "x" wQuotaRecX 3 = some wQuotaStateX := by
  have hl : pyLower "x" = "x" := by decide
  have hlX : pyLower "X" = "x" := by decide
  simp [get_quota_state, hl, hlX, SUBSTANCE_QUOTAS, quotaStateBody, substanceRecords,
    validDates, quotaWeekN, unitsUsedIn, quotaStatusFlags, isoWeekStart, pyWeekday,
    wQuotaRecX, wQuotaStateX, List.min?]
  norm_num [Int.fdiv]

theorem quota_decay_exact_monotone_witness :
    get_quota_state "x" wQuotaRecX 3 = some wQuotaStateX ∧
    wQuotaStateX.current_quota =
      wQuotaStateX.quota_week_0 * wQuotaStateX.decay_factor ^ wQuotaStateX.week_n ∧
    (wQuotaStateX.week_n : ℤ) = max 0 ((isoWeekStart 3 - isoWeekStart 3).fdiv 7) ∧
    (2:ℚ) * (80/100) ^ (0 + 1) ≤ 2 * (80/100) ^ 0 := by
  refine ⟨quota_eval_x,
    (quota_decay_exact_monotone.1 "x" wQuotaRecX 3 wQuotaStateX quota_eval_x).1,
    ?_,
    quota_decay_exact_monotone.2 "x" 2 (80/100) (by simp [SUBSTANCE_QUOTAS]) (by norm_num) 0⟩
  exact (quota_decay_exact_monotone.1 "x" wQuotaRecX 3 wQuotaStateX quota_eval_x).2.2 3
    (by decide)

/-- Claim C8: a substance absent from the controlled-use configuration gets a
plain record with all three flags false, no coaching and no message, for any
amount, timestamp and history; a substance absent from the quota table gets
`None` from the quota engine regardless of history. -/
theorem unknown_substance_no_rules :
    (∀ (substance amount unit : String) (amountVal : Option ℚ) (timestamp : ℚ)
      (recentRecords : List CURecHist) (tzOffset : ℚ) (nowTs : String),
      CONTROLLED_USE_CONFIG (pyLower substance) = none →
      (evaluate_controlled_use substance amount unit amountVal timestamp recentRecords
          tzOffset nowTs).1.work_hours_violation = false ∧
      (evaluate_controlled_use substance amount unit amountVal timestamp recentRecords
          tzOffset nowTs).1.cooldown_violation = false ∧
      (evaluate_controlled_use substance amount unit amountVal timestamp recentRecords
          tzOffset nowTs).1.daily_ceiling_exceeded = false ∧
      (evaluate_controlled_use substance amount unit amountVal timestamp recentRecords
          tzOffset nowTs).2.1 = false ∧
      (evaluate_controlled_use substance amount unit amountVal timestamp recentRecords
          tzOffset nowTs).2.2 = none) ∧
    (∀ (substance : String) (records : List IntakeRec) (refDate : ℤ),
      SUBSTANCE_QUOTAS (pyLower substance) = none →
      get_quota_state substance records refDate = none) := by
  constructor
  · intro substance amount unit amountVal timestamp recentRecords tzOffset nowTs hcfg
    unfold evaluate_controlled_use
    rw [hcfg]
    exact ⟨rfl, rfl, rfl, rfl, rfl⟩
  · intro substance records refDate htab
    unfold get_quota_state
    rw [htab]

theorem unknown_substance_no_rules_witness :
    ((evaluate_controlled_use "coffee" "2" "cups" (some 2) 0 [] 1 "now").1.work_hours_violation = false ∧
      (evaluate_controlled_use "coffee" "2" "cups" (some 2) 0 [] 1 "now").1.cooldown_violation = false ∧
      (evaluate_controlled_use "coffee" "2" "cups" (some 2) 0 [] 1 "now").1.daily_ceiling_exceeded = false ∧
      (evaluate_controlled_use "coffee" "2" "cups" (some 2) 0 [] 1 "now").2.1 = false ∧
      (evaluate_controlled_use "coffee" "2" "cups" (some 2) 0 [] 1 "now").2.2 = none) ∧
    get_quota_state "coffee" [] 0 = none := by
  constructor
  · exact unknown_substance_no_rules.1 "coffee" "2" "cups" (some 2) 0 [] 1 "now"
      (by decide)
  · exact unknown_substance_no_rules.2 "coffee" [] 0 (by decide)

/-- Claim C9: the advisor returns STRUGGLING whenever some tracked substance's
quota state has `coaching_flag`, overriding the habit signals; otherwise it
classifies by the number of at-risk habits: `≥ 3` STRUGGLING, 1–2 HOLDING,
0 THRIVING. -/
theorem advisor_state_classification :
    ∀ (quota : String → Option QuotaState) (streak : String → StreakState),
      ((∃ s ∈ SUBSTANCES, ∃ qs, quota s = some qs ∧ qs.coaching_flag = true) →
        compute_advisor_state quota streak = AdvisorState.struggling) ∧
      (¬(∃ s ∈ SUBSTANCES, ∃ qs, quota s = some qs ∧ qs.coaching_flag = true) →
        (3 ≤ (HABITS.filter fun h => (streak h).at_risk).length →
          compute_advisor_state quota streak = AdvisorState.struggling) ∧
        (1 ≤ (HABITS.filter fun h => (streak h).at_risk).length ∧
            (HABITS.filter fun h => (streak h).at_risk).length ≤ 2 →
          compute_advisor_state quota streak = AdvisorState.holding) ∧
        ((HABITS.filter fun h => (streak h).at_risk).length = 0 →
          compute_advisor_state quota streak = AdvisorState.thriving)) := by
  intro quota streak
  have hany : ((SUBSTANCES.any fun s =>
      match quota s with
      | some qs => qs.coaching_flag
      | none => false) = true) ↔
      ∃ s ∈ SUBSTANCES, ∃ qs, quota s = some qs ∧ qs.coaching_flag = true := by
    rw [List.any_eq_true]
    constructor
    · rintro ⟨s, hs, hp⟩
      cases hq : quota s with
      | none => rw [hq] at hp; cases hp
      | some qs => rw [hq] at hp; exact ⟨s, hs, qs, hq, hp⟩
    · rintro ⟨s, hs, qs, hq, hc⟩
      refine ⟨s, hs, ?_⟩
      rw [hq]
      exact hc
  constructor
  · intro hex
    unfold compute_advisor_state
    rw [if_pos (hany.mpr hex)]
  · intro hnex
    have hne : ¬((SUBSTANCES.any fun s =>
        match quota s with
        | some qs => qs.coaching_flag
        | none => false) = true) := fun hc => hnex (hany.mp hc)
    unfold compute_advisor_state
    rw [if_neg hne]
    refine ⟨fun h => ?_, fun h => ?_, fun h => ?_⟩ <;>
      (dsimp only; split_ifs <;> first | rfl | omega)

/-- A streak state with `at_risk = false`, used by the C9 witness. -/
def wStreakCalm : StreakState :=
  { habit := "exercise"
    streak_days := 0
    multiplier := 1
    grace_total_earned := 0
    grace_consumed := 0
    grace_available := 0
    at_risk := false
    milestone_hit := none }

theorem advisor_state_classification_witness :
    compute_advisor_state (fun _ => none) (fun _ => wStreakCalm) = AdvisorState.thriving := by
  have hnex : ¬(∃ s ∈ SUBSTANCES, ∃ qs,
      (fun _ => (none : Option QuotaState)) s = some qs ∧ qs.coaching_flag = true) := by
    simp
  have hcount : ((HABITS.filter fun h =>
      ((fun _ => wStreakCalm) h : StreakState).at_risk).length) = 0 := by
    simp [HABITS, wStreakCalm]
  exact ((advisor_state_classification (fun _ => none) (fun _ => wStreakCalm)).2 hnex).2.2
    hcount

/-- Claim C6: `trigger_penance` stores exactly one diary record on every path;
on the escalated-and-denied path it skips the questionnaire and persists a
minimal denial record (one Q&A pair) with credit 0; MINOR and STANDARD never
request confirmation and always run the questionnaire. -/
theorem penance_every_path_stores_once :
    ∀ (substance : String) (unitsOver : ℚ) (relapseCount : ℤ)
      (confirm : String → String) (runQ : Questionnaire → List (String × String))
      (ts : String),
      (trigger_penance substance unitsOver relapseCount confirm runQ ts).stored =
        [((trigger_penance substance unitsOver relapseCount confirm runQ ts).record,
          "diary")] ∧
      (compute_severity unitsOver relapseCount = PenanceSeverity.escalated →
        pyIn "APPROVED"
            (pyUpper (confirm (confirmationMessage substance unitsOver relapseCount))) =
          false →
        (trigger_penance substance unitsOver relapseCount confirm runQ ts).questionnaireRan =
          false ∧
        (trigger_penance substance unitsOver relapseCount confirm runQ ts).record.penance_credit =
          0 ∧
        (trigger_penance substance unitsOver relapseCount confirm runQ ts).record.questions_asked =
          1) ∧
      (compute_severity unitsOver relapseCount ≠ PenanceSeverity.escalated →
        (trigger_penance substance unitsOver relapseCount confirm runQ ts).confirmations =
          [] ∧
        (trigger_penance substance unitsOver relapseCount confirm runQ ts).questionnaireRan =
          true) := by
  intro substance unitsOver relapseCount confirm runQ ts
  unfold trigger_penance
  by_cases hsev : compute_severity unitsOver relapseCount = PenanceSeverity.escalated
  · rw [if_pos hsev]
    by_cases happ : pyIn "APPROVED"
        (pyUpper (confirm (confirmationMessage substance unitsOver relapseCount))) = false
    · rw [if_pos happ]
      exact ⟨rfl, fun _ _ => ⟨rfl, rfl, rfl⟩, fun hne => absurd hsev hne⟩
    · rw [if_neg happ]
      exact ⟨rfl, fun _ h2 => absurd h2 happ, fun hne => absurd hsev hne⟩
  · rw [if_neg hsev]
    exact ⟨rfl, fun h _ => absurd h hsev, fun _ => ⟨rfl, rfl⟩⟩

theorem penance_every_path_stores_once_witness :
    (trigger_penance "k" 5 0 (fun _ => "denied") (fun _ => []) "t").stored =
      [((trigger_penance "k" 5 0 (fun _ => "denied") (fun _ => []) "t").record, "diary")] ∧
    (trigger_penance "k" 5 0 (fun _ => "denied") (fun _ => []) "t").questionnaireRan = false ∧
    (trigger_penance "k" 5 0 (fun _ => "denied") (fun _ => []) "t").record.penance_credit = 0 ∧
    (trigger_penance "k" 5 0 (fun _ => "denied") (fun _ => []) "t").record.questions_asked = 1 := by
  have h := penance_every_path_stores_once "k" 5 0 (fun _ => "denied") (fun _ => []) "t"
  have hesc : compute_severity 5 0 = PenanceSeverity.escalated := by decide
  have happ : pyIn "APPROVED" (pyUpper ((fun _ => "denied")
      (confirmationMessage "k" 5 0))) = false := by decide
  obtain ⟨h1, h2, -⟩ := h
  obtain ⟨h3, h4, h5⟩ := h2 hesc happ
  exact ⟨h1, h3, h4, h5⟩

/-- Claim C10: in the escalated path the HIL gate is a substring test —
`"APPROVED"` occurring in the uppercased verdict means approval, so a verdict
like "NOT APPROVED" runs the full questionnaire with credit 0.3, and every
verdict without that substring takes the denial branch with credit 0. -/
theorem penance_hil_gate_is_substring_test :
    ∀ (substance : String) (unitsOver : ℚ) (relapseCount : ℤ)
      (confirm : String → String) (runQ : Questionnaire → List (String × String))
      (ts : String),
      compute_severity unitsOver relapseCount = PenanceSeverity.escalated →
      (pyIn "APPROVED"
          (pyUpper (confirm (confirmationMessage substance unitsOver relapseCount))) =
        true →
        (trigger_penance substance unitsOver relapseCount confirm runQ ts).questionnaireRan =
          true ∧
        (trigger_penance substance unitsOver relapseCount confirm runQ ts).record.penance_credit =
          3/10) ∧
      (pyIn "APPROVED"
          (pyUpper (confirm (confirmationMessage substance unitsOver relapseCount))) =
        false →
        (trigger_penance substance unitsOver relapseCount confirm runQ ts).questionnaireRan =
          false ∧
        (trigger_penance substance unitsOver relapseCount confirm runQ ts).record.penance_credit =
          0) ∧
      pyIn "APPROVED" (pyUpper "NOT APPROVED") = true := by
  intro substance unitsOver relapseCount confirm runQ ts hesc
  unfold trigger_penance
  rw [hesc]
  rw [if_pos rfl]
  refine ⟨fun happ => ?_, fun hden => ?_, by decide⟩
  · rw [if_neg (by simp [happ])]
    exact ⟨rfl, rfl⟩
  · rw [if_pos hden]
    exact ⟨rfl, rfl⟩

theorem penance_hil_gate_is_substring_test_witness :
    (trigger_penance "k" 4 0 (fun _ => "NOT APPROVED") (fun _ => []) "t").questionnaireRan =
      true ∧
    (trigger_penance "k" 4 0 (fun _ => "NOT APPROVED") (fun _ => []) "t").record.penance_credit =
      3/10 := by
  have hesc : compute_severity 4 0 = PenanceSeverity.escalated := by decide
  have happ : pyIn "APPROVED" (pyUpper ((fun _ => "NOT APPROVED")
      (confirmationMessage "k" 4 0))) = true := by decide
  exact (penance_hil_gate_is_substring_test "k" 4 0 (fun _ => "NOT APPROVED")
    (fun _ => []) "t" hesc).1 happ

/-! ### Streak walk lemmas -/

lemma streakWalk_mem {s : Finset ℤ} {cursor : ℤ} {b st g : ℕ} (h : cursor ∈ s) :
    streakWalk s cursor b st g = streakWalk s (cursor - 1) b (st + 1) g := by
  rw [streakWalk, if_pos h]

lemma streakWalk_grace {s : Finset ℤ} {cursor : ℤ} {b st g : ℕ}
    (h1 : cursor ∉ s) (h2 : g < b) (h3 : (cursor - 1) ∈ s) :
    streakWalk s cursor b st g = streakWalk s (cursor - 1) b st (g + 1) := by
  rw [streakWalk, if_neg h1, if_pos ⟨h2, h3⟩]

lemma streakWalk_stop {s : Finset ℤ} {cursor : ℤ} {b st g : ℕ}
    (h1 : cursor ∉ s) (h2 : ¬(g < b ∧ (cursor - 1) ∈ s)) :
    streakWalk s cursor b st g = (st, g) := by
  rw [streakWalk, if_neg h1, if_neg h2]

/-- Running the walk over `k` consecutive present days adds `k` to the streak
accumulator and moves the cursor back `k` days. -/
lemma streakWalk_run (s : Finset ℤ) (b : ℕ) :
    ∀ (k : ℕ) (cursor : ℤ) (st g : ℕ),
      (∀ i : ℕ, i < k → cursor - i ∈ s) →
      streakWalk s cursor b st g = streakWalk s (cursor - k) b (st + k) g := by
  intro k
  induction k with
  | zero =>
      intro cursor st g _
      simp
  | succ n ih =>
      intro cursor st g hmem
      have h0 : cursor ∈ s := by
        have := hmem 0 (Nat.succ_pos n)
        simpa using this
      rw [streakWalk_mem h0]
      have hrest : ∀ i : ℕ, i < n → (cursor - 1) - i ∈ s := by
        intro i hi
        have hnext := hmem (i + 1) (by omega)
        have he : cursor - 1 - (i : ℤ) = cursor - ((i : ℕ) + 1 : ℕ) := by
          push_cast
          ring
        rw [he]
        exact hnext
      rw [ih (cursor - 1) (st + 1) g hrest]
      have e1 : cursor - 1 - (n : ℤ) = cursor - ((n + 1 : ℕ) : ℤ) := by
        push_cast
        ring
      have e2 : st + 1 + n = st + (n + 1) := by omega
      rw [e1, e2]

/-- The accumulators only grow along the walk. -/
lemma streakWalk_ge_aux :
    ∀ (N : ℕ) (s : Finset ℤ) (cursor : ℤ) (b st g : ℕ),
      2 * (s.filter fun d => d ≤ cursor).card + (b - g) ≤ N →
      st ≤ (streakWalk s cursor b st g).1 ∧ g ≤ (streakWalk s cursor b st g).2 := by
  intro N
  induction N with
  | zero =>
      intro s cursor b st g hN
      by_cases h1 : cursor ∈ s
      · exfalso
        have hpos : 0 < (s.filter fun d => d ≤ cursor).card :=
          Finset.card_pos.mpr ⟨cursor, Finset.mem_filter.mpr ⟨h1, le_refl _⟩⟩
        omega
      · by_cases h2 : g < b ∧ (cursor - 1) ∈ s
        · exfalso
          omega
        · rw [streakWalk_stop h1 h2]
          exact ⟨le_refl st, le_refl g⟩
  | succ n ih =>
      intro s cursor b st g hN
      by_cases h1 : cursor ∈ s
      · rw [streakWalk_mem h1]
        have hcard := filterLe_card_lt h1
        have hrec := ih s (cursor - 1) b (st + 1) g (by omega)
        exact ⟨le_trans (Nat.le_succ st) hrec.1, hrec.2⟩
      · by_cases h2 : g < b ∧ (cursor - 1) ∈ s
        · rw [streakWalk_grace h1 h2.1 h2.2]
          have hcc : (s.filter fun d => d ≤ cursor - 1).card =
              (s.filter fun d => d ≤ cursor).card := by
            rw [filterLe_eq h1]
          have hrec := ih s (cursor - 1) b st (g + 1) (by omega)
          exact ⟨hrec.1, le_trans (Nat.le_succ g) hrec.2⟩
        · rw [streakWalk_stop h1 h2]
          exact ⟨le_refl st, le_refl g⟩

lemma streakWalk_ge (s : Finset ℤ) (cursor : ℤ) (b st g : ℕ) :
    st ≤ (streakWalk s cursor b st g).1 ∧ g ≤ (streakWalk s cursor b st g).2 :=
  streakWalk_ge_aux (2 * (s.filter fun d => d ≤ cursor).card + (b - g)) s cursor b st g
    (le_refl _)

/-- A fully present run of `k` days followed by a two-day gap yields streak `k`
with no grace consumed. -/
lemma computeStreak_full_run (s : Finset ℤ) (start : ℤ) (budget k : ℕ)
    (hmem : ∀ i : ℕ, i < k → start - i ∈ s)
    (h1 : (start - k) ∉ s) (h2 : (start - k - 1) ∉ s) :
    computeStreakWithGrace s start budget = (k, 0) := by
  unfold computeStreakWithGrace
  rw [streakWalk_run s budget k start 0 0 hmem]
  rw [streakWalk_stop h1 (by rintro ⟨-, hx⟩; exact h2 hx)]
  simp

lemma countBareStreak_mem {s : Finset ℤ} {cursor : ℤ} (h : cursor ∈ s) :
    countBareStreak s cursor = countBareStreak s (cursor - 1) + 1 := by
  rw [countBareStreak, if_pos h]

lemma countBareStreak_stop {s : Finset ℤ} {cursor : ℤ} (h : cursor ∉ s) :
    countBareStreak s cursor = 0 := by
  rw [countBareStreak, if_neg h]

/-- `_count_bare_streak` counts exactly the unbroken run ending at the start
cursor. -/
lemma countBareStreak_run (s : Finset ℤ) :
    ∀ (k : ℕ) (cursor : ℤ),
      (∀ i : ℕ, i < k → cursor - i ∈ s) → (cursor - k) ∉ s →
      countBareStreak s cursor = k := by
  intro k
  induction k with
  | zero =>
      intro cursor _ hstop
      rw [countBareStreak_stop]
      simpa using hstop
  | succ n ih =>
      intro cursor hmem hstop
      have h0 : cursor ∈ s := by
        have := hmem 0 (Nat.succ_pos n)
        simpa using this
      rw [countBareStreak_mem h0]
      rw [ih (cursor - 1) ?_ ?_]
      · intro i hi
        have hnext := hmem (i + 1) (by omega)
        have he : cursor - 1 - (i : ℤ) = cursor - ((i : ℕ) + 1 : ℕ) := by
          push_cast
          ring
        rw [he]
        exact hnext
      · have he : cursor - 1 - (n : ℤ) = cursor - ((n + 1 : ℕ) : ℤ) := by
          push_cast
          ring
        rw [he]
        exact hstop

/-- Unfolding of `get_streak_state` when some completion date exists. -/
lemma get_streak_state_pos (habit : String) (records : List (Option ℤ)) (refDate : ℤ)
    (h : (extractDates records).Nonempty) :
    get_streak_state habit records refDate =
      { habit := habit
        streak_days := (computeStreakWithGrace (extractDates records) refDate
          (min (countBareStreak (extractDates records) ((extractDates records).max' h) / 7)
            MAX_GRACE)).1
        multiplier := compute_multiplier ((computeStreakWithGrace (extractDates records) refDate
          (min (countBareStreak (extractDates records) ((extractDates records).max' h) / 7)
            MAX_GRACE)).1)
        grace_total_earned := (computeStreakWithGrace (extractDates records) refDate
          (min (countBareStreak (extractDates records) ((extractDates records).max' h) / 7)
            MAX_GRACE)).1 / 7
        grace_consumed := (computeStreakWithGrace (extractDates records) refDate
          (min (countBareStreak (extractDates records) ((extractDates records).max' h) / 7)
            MAX_GRACE)).2
        grace_available := min ((computeStreakWithGrace (extractDates records) refDate
          (min (countBareStreak (extractDates records) ((extractDates records).max' h) / 7)
            MAX_GRACE)).1 / 7 -
          (computeStreakWithGrace (extractDates records) refDate
            (min (countBareStreak (extractDates records) ((extractDates records).max' h) / 7)
              MAX_GRACE)).2) MAX_GRACE
        at_risk := decide (7 ≤ (computeStreakWithGrace (extractDates records) refDate
          (min (countBareStreak (extractDates records) ((extractDates records).max' h) / 7)
            MAX_GRACE)).1) && !(decide (refDate ∈ extractDates records))
        milestone_hit := check_milestone ((computeStreakWithGrace (extractDates records) refDate
          (min (countBareStreak (extractDates records) ((extractDates records).max' h) / 7)
            MAX_GRACE)).1) } := by
  simp only [get_streak_state]
  rw [dif_pos h]

/-- Unfolding of `get_streak_state` when no completion date exists. -/
lemma get_streak_state_empty (habit : String) (records : List (Option ℤ)) (refDate : ℤ)
    (h : ¬(extractDates records).Nonempty) :
    get_streak_state habit records refDate =
      { habit := habit
        streak_days := 0
        multiplier := compute_multiplier 0
        grace_total_earned := 0
        grace_consumed := 0
        grace_available := 0
        at_risk := false
        milestone_hit := none } := by
  simp only [get_streak_state]
  rw [dif_neg h]

/-- Claim C3: the backward walk bridges one isolated single-day gap when grace
is available, consuming exactly one grace unit and counting every present day
of the whole range, and a gap of two or more days always ends the streak
there, regardless of the remaining budget. -/
theorem streak_gap_bridging :
    (∀ (a g b : ℤ) (budget : ℕ), a < g → g < b → 1 ≤ budget →
      computeStreakWithGrace ((Finset.Icc a b).erase g) b budget = ((b - a).toNat, 1)) ∧
    (∀ (s : Finset ℤ) (g b : ℤ) (budget : ℕ), g ≤ b → g ∉ s → g - 1 ∉ s →
      (∀ d : ℤ, g < d → d ≤ b → d ∈ s) →
      computeStreakWithGrace s b budget = ((b - g).toNat, 0)) := by
  constructor
  · intro a g b budget hag hgb hbud
    have hmemS : ∀ x : ℤ, x ∈ (Finset.Icc a b).erase g ↔ x ≠ g ∧ a ≤ x ∧ x ≤ b := by
      intro x
      rw [Finset.mem_erase, Finset.mem_Icc]
    unfold computeStreakWithGrace
    have hrun1 : ∀ i : ℕ, i < (b - g).toNat → b - i ∈ (Finset.Icc a b).erase g := by
      intro i hi
      rw [hmemS]
      omega
    rw [streakWalk_run _ budget ((b - g).toNat) b 0 0 hrun1]
    have he1 : b - ((b - g).toNat : ℤ) = g := by omega
    rw [he1]
    have hgnot : g ∉ (Finset.Icc a b).erase g := by
      rw [hmemS]
      omega
    have hg1in : g - 1 ∈ (Finset.Icc a b).erase g := by
      rw [hmemS]
      omega
    rw [streakWalk_grace hgnot (by omega) hg1in]
    have hrun2 : ∀ i : ℕ, i < (g - a).toNat → (g - 1) - i ∈ (Finset.Icc a b).erase g := by
      intro i hi
      rw [hmemS]
      omega
    rw [streakWalk_run _ budget ((g - a).toNat) (g - 1) (0 + (b - g).toNat) 1 hrun2]
    have he2 : g - 1 - ((g - a).toNat : ℤ) = a - 1 := by omega
    rw [he2]
    have hstop1 : (a - 1) ∉ (Finset.Icc a b).erase g := by
      rw [hmemS]
      omega
    rw [streakWalk_stop hstop1 (by
      rintro ⟨-, hx⟩
      rw [hmemS] at hx
      omega)]
    have hsum : 0 + (b - g).toNat + (g - a).toNat = (b - a).toNat := by omega
    rw [hsum]
  · intro s g b budget hgb hg hg1 hrun
    unfold computeStreakWithGrace
    have hmem : ∀ i : ℕ, i < (b - g).toNat → b - i ∈ s := by
      intro i hi
      exact hrun _ (by omega) (by omega)
    rw [streakWalk_run s budget ((b - g).toNat) b 0 0 hmem]
    have he : b - ((b - g).toNat : ℤ) = g := by omega
    rw [he]
    rw [streakWalk_stop hg (by rintro ⟨-, hx⟩; exact hg1 hx)]
    simp

theorem streak_gap_bridging_witness :
    computeStreakWithGrace ((Finset.Icc (0:ℤ) 9).erase 2) 9 1 = (9, 1) ∧
    computeStreakWithGrace (Finset.Icc (5:ℤ) 9) 9 5 = (5, 0) := by
  constructor
  · have h := streak_gap_bridging.1 0 2 9 1 (by norm_num) (by norm_num) (le_refl 1)
    simpa using h
  · have h := streak_gap_bridging.2 (Finset.Icc (5:ℤ) 9) 4 9 5 (by norm_num) (by decide)
      (by decide) (by
        intro d h1 h2
        rw [Finset.mem_Icc]
        omega)
    simpa using h

/-- Claim C4: the grace budget is seeded as `min(bare_seed // 7, 3)` from the
unbroken run ending at the most recent completion date `m`, so when the run
has earned grace (`bare_seed ≥ 7`) and the reference date itself has no record
but the day before is completed, the walk consumes a grace unit and the
streak is not cut to zero. -/
theorem streak_grace_seeded_from_latest :
    ∀ (habit : String) (records : List (Option ℤ)) (refDate m : ℤ),
      m ∈ extractDates records →
      (∀ x ∈ extractDates records, x ≤ m) →
      7 ≤ countBareStreak (extractDates records) m →
      refDate ∉ extractDates records →
      refDate - 1 ∈ extractDates records →
      (get_streak_state habit records refDate).streak_days =
        (computeStreakWithGrace (extractDates records) refDate
          (min (countBareStreak (extractDates records) m / 7) MAX_GRACE)).1 ∧
      (get_streak_state habit records refDate).grace_consumed =
        (computeStreakWithGrace (extractDates records) refDate
          (min (countBareStreak (extractDates records) m / 7) MAX_GRACE)).2 ∧
      1 ≤ (get_streak_state habit records refDate).grace_consumed ∧
      1 ≤ (get_streak_state habit records refDate).streak_days := by
  intro habit records refDate m hmem hmax hbare hnot hprev
  have hne : (extractDates records).Nonempty := ⟨m, hmem⟩
  have hm : (extractDates records).max' hne = m :=
    le_antisymm (Finset.max'_le _ hne _ hmax) (Finset.le_max' _ _ hmem)
  have hbud : 1 ≤ min (countBareStreak (extractDates records) m / 7) MAX_GRACE := by
    have h7 : 1 ≤ countBareStreak (extractDates records) m / 7 :=
      (Nat.one_le_div_iff (by norm_num)).mpr hbare
    simp only [MAX_GRACE]
    omega
  have hgrace :
      1 ≤ (computeStreakWithGrace (extractDates records) refDate
        (min (countBareStreak (extractDates records) m / 7) MAX_GRACE)).1 ∧
      1 ≤ (computeStreakWithGrace (extractDates records) refDate
        (min (countBareStreak (extractDates records) m / 7) MAX_GRACE)).2 := by
    unfold computeStreakWithGrace
    rw [streakWalk_grace hnot (by omega) hprev, streakWalk_mem hprev]
    constructor
    · exact (streakWalk_ge (extractDates records) (refDate - 1 - 1) _ (0 + 1) (0 + 1)).1
    · exact (streakWalk_ge (extractDates records) (refDate - 1 - 1) _ (0 + 1) (0 + 1)).2
  rw [get_streak_state_pos habit records refDate hne, hm]
  exact ⟨rfl, rfl, hgrace.2, hgrace.1⟩

/-- Seven consecutive completion dates ending the day before the reference
date, for the C4 witness. -/
def wRecs7 : List (Option ℤ) :=
  [some 0, some 1, some 2, some 3, some 4, some 5, some 6]

theorem streak_grace_seeded_from_latest_witness :
    1 ≤ (get_streak_state "exercise" wRecs7 7).grace_consumed ∧
    1 ≤ (get_streak_state "exercise" wRecs7 7).streak_days := by
  have hbare : countBareStreak (extractDates wRecs7) 6 = 7 :=
    countBareStreak_run _ 7 6 (by decide) (by decide)
  have h := streak_grace_seeded_from_latest "exercise" wRecs7 7 6 (by decide) (by decide)
    (by rw [hbare]) (by decide) (by decide)
  exact ⟨h.2.2.1, h.2.2.2⟩

/-- Twenty-eight consecutive completion dates ending at the reference date. -/
def wRecs28 : List (Option ℤ) := (List.range 28).map fun i => some (i : ℤ)

/-- Counterexample to claim C7 as stated: a 28-day streak yields
`grace_total_earned = 4`, so `grace_total_earned` is not capped at 3. -/
theorem grace_total_earned_cap_refuted :
    (get_streak_state "exercise" wRecs28 27).grace_total_earned = 4 ∧
    ¬ ∀ (habit : String) (records : List (Option ℤ)) (refDate : ℤ),
        (get_streak_state habit records refDate).grace_total_earned ≤ 3 := by
  have hne : (extractDates wRecs28).Nonempty := ⟨27, by decide⟩
  have heval : (get_streak_state "exercise" wRecs28 27).grace_total_earned = 4 := by
    rw [get_streak_state_pos "exercise" wRecs28 27 hne]
    have hm : (extractDates wRecs28).max' hne = 27 :=
      le_antisymm (Finset.max'_le _ hne _ (by decide)) (Finset.le_max' _ _ (by decide))
    rw [hm]
    have hbare : countBareStreak (extractDates wRecs28) 27 = 28 :=
      countBareStreak_run _ 28 27 (by decide) (by decide)
    rw [hbare]
    have hwalk : computeStreakWithGrace (extractDates wRecs28) 27 (min (28 / 7) MAX_GRACE) =
        (28, 0) :=
      computeStreak_full_run _ 27 _ 28 (by decide) (by decide) (by decide)
    rw [hwalk]
    rfl
  refine ⟨heval, fun hall => ?_⟩
  have hcap := hall "exercise" wRecs28 27
  omega

/-- Claim C7 amended: `grace_total_earned = streak_days // 7` with no cap (it
can exceed 3); only `grace_available = min(max(total - consumed, 0), 3)` is
capped at 3. -/
theorem grace_fields_formula :
    ∀ (habit : String) (records : List (Option ℤ)) (refDate : ℤ),
      (get_streak_state habit records refDate).grace_total_earned =
        (get_streak_state habit records refDate).streak_days / 7 ∧
      ((get_streak_state habit records refDate).grace_available : ℤ) =
        min (max (((get_streak_state habit records refDate).grace_total_earned : ℤ) -
          (get_streak_state habit records refDate).grace_consumed) 0) 3 := by
  intro habit records refDate
  by_cases h : (extractDates records).Nonempty
  · rw [get_streak_state_pos habit records refDate h]
    refine ⟨rfl, ?_⟩
    show ((min _ MAX_GRACE : ℕ) : ℤ) = _
    simp only [MAX_GRACE]
    omega
  · rw [get_streak_state_empty habit records refDate h]
    refine ⟨(Nat.zero_div 7).symm, ?_⟩
    show ((0:ℕ) : ℤ) = min (max (((0:ℕ) : ℤ) - ((0:ℕ) : ℤ)) 0) 3
    omega

end Integra
